import Mathlib

/-!
Verification of the swap-coordination engine (boltz-backend).

The definitions below are a shallow embedding of the TypeScript sources:
`lib/service/EventHandler` (the event fan-out of the swap nursery),
`lib/service/Service` (swap creation), the HTTP `Controller`
(status map and request validation) and `lib/chain/ChainClient.estimateFee`.
Machine numbers are modelled as `Nat` / `Int` / `Rat`; fallible code returns
`Except`; the sequelize repositories become association lists of rows.
-/

namespace Boltz

/-- The swap status enum `SwapUpdateEvent` from `lib/consts/Enums`. -/
inductive SwapUpdateEvent where
  | SwapCreated
  | TransactionMempool
  | TransactionConfirmed
  | TransactionClaimed
  | TransactionRefunded
  | TransactionFailed
  | InvoicePending
  | InvoicePaid
  | InvoiceSettled
  | InvoiceFailedToPay
  | SwapExpired
  deriving DecidableEq, Repr

/-- `OrderSide` from `lib/consts/Enums`. -/
inductive OrderSide where
  | BUY
  | SELL
  deriving DecidableEq, Repr

/-! ## EventHandler: data model

The submarine `Swap` row and the `ReverseSwap` row, restricted to the columns
the `EventHandler` reads or writes.  A `status` that was never set is `none`
(the TypeScript guard `!swap.status` tests for that). -/

/-- A submarine swap database row (columns used by `EventHandler`). -/
structure Swap where
  id : String
  invoice : String
  lockupAddress : String
  acceptZeroConf : Bool
  expectedAmount : Nat
  status : Option SwapUpdateEvent := none
  lockupTransactionId : Option String := none
  onchainAmount : Option Nat := none
  routingFee : Option Nat := none
  minerFee : Option Nat := none
  deriving DecidableEq, Repr

/-- A reverse swap database row (columns used by `EventHandler`). -/
structure ReverseSwap where
  id : String
  invoice : String
  status : Option SwapUpdateEvent := none
  transactionId : Option String := none
  preimage : Option String := none
  minerFee : Option Nat := none
  deriving DecidableEq, Repr

/-- The `SwapUpdate` message emitted on `swap.update`
(`status` plus optional `transactionId` / `transactionHex`). -/
structure SwapUpdateMsg where
  status : SwapUpdateEvent
  transactionId : Option String := none
  transactionHex : Option String := none
  deriving DecidableEq, Repr

/-- One observable step of an `EventHandler` callback, in program order:
a repository write (the awaited sequelize update) or an event emitted on the
bus.  `swap.success` / `swap.failure` carry the swap row itself. -/
inductive Action where
  | writeSwap (s : Swap)
  | writeReverseSwap (r : ReverseSwap)
  | emitUpdate (id : String) (msg : SwapUpdateMsg)
  | emitSuccess (swap : Sum Swap ReverseSwap) (isReverse : Bool)
  | emitFailure (swap : Sum Swap ReverseSwap) (isReverse : Bool) (reason : String)
  deriving DecidableEq, Repr

/-! ### Repository writes

`SwapRepository` / `ReverseSwapRepository` are not part of the sources at
hand; their update methods are modelled from the spec. -/

/-- Modelled from the spec: `SwapRepository.setLockupTransactionId` stores the
funding transaction and moves the row to `TransactionMempool` or
`TransactionConfirmed` ("a transition is applied by setting new status
together with any side data"). -/
def setLockupTransactionId (s : Swap) (txid : String) (value : Nat) (confirmed : Bool) : Swap :=
  { s with
    lockupTransactionId := some txid
    onchainAmount := some value
    status := some (if confirmed then .TransactionConfirmed else .TransactionMempool) }

/-- Modelled from the spec: `ReverseSwapRepository.setReverseSwapStatus`
records the new status. -/
def setReverseSwapStatus (r : ReverseSwap) (st : SwapUpdateEvent) : ReverseSwap :=
  { r with status := some st }

/-- Modelled from the spec: `ReverseSwapRepository.setInvoiceSettled` stores
the preimage and marks the row `InvoiceSettled`. -/
def setInvoiceSettled (r : ReverseSwap) (preimage : String) : ReverseSwap :=
  { r with preimage := some preimage, status := some .InvoiceSettled }

/-- Modelled from the spec: `SwapRepository.setInvoicePaid` stores the routing
fee and marks the row `InvoicePaid`. -/
def setInvoicePaid (s : Swap) (routingFee : Nat) : Swap :=
  { s with routingFee := some routingFee, status := some .InvoicePaid }

/-- Modelled from the spec: `SwapRepository.setSwapStatus` records the new
status. -/
def setSwapStatus (s : Swap) (st : SwapUpdateEvent) : Swap :=
  { s with status := some st }

/-- Modelled from the spec: `SwapRepository.setMinerFee` stores the claim
miner fee and marks the row `TransactionClaimed`. -/
def setMinerFee (s : Swap) (fee : Nat) : Swap :=
  { s with minerFee := some fee, status := some .TransactionClaimed }

/-- Modelled from the spec: `ReverseSwapRepository.setLockupTransaction`
stores the lockup transaction and marks the row `TransactionMempool`. -/
def setLockupTransaction (r : ReverseSwap) (txid : String) (fee : Nat) : ReverseSwap :=
  { r with transactionId := some txid, minerFee := some fee, status := some .TransactionMempool }

/-- Modelled from the spec: `ReverseSwapRepository.setTransactionRefunded`
stores the refund miner fee and marks the row `TransactionRefunded`. -/
def setTransactionRefunded (r : ReverseSwap) (fee : Nat) : ReverseSwap :=
  { r with minerFee := some fee, status := some .TransactionRefunded }

/-- Replace the first element satisfying `p` (a sequelize `update` on the row
returned by a `find`). -/
def applyToFirst (p : α → Bool) (f : α → α) : List α → List α
  | [] => []
  | x :: xs => if p x then f x :: xs else x :: applyToFirst p f xs

/-- Error message of `service/Errors.INVOICE_COULD_NOT_BE_PAID` (module not in
the sources at hand; only the text is modelled). -/
def msgInvoiceCouldNotBePaid : String := "invoice could not be paid"

/-- Error message of `service/Errors.ONCHAIN_HTLC_TIMED_OUT`. -/
def msgOnchainHtlcTimedOut : String := "onchain HTLC timed out"

/-- Error message of `service/Errors.COINS_COULD_NOT_BE_SENT`. -/
def msgCoinsCouldNotBeSent : String := "coins could not be sent"

/-! ### EventHandler callbacks

Each callback of `EventHandler` becomes a function from the repository stores
and the event payload to the updated stores and the list of `Action`s it
performs, in program order. -/

/-- `EventHandler.handleFailedSwap`: emit `swap.update` with the failure
status, then `swap.failure` with the swap and the reason. -/
def handleFailedSwapTrace (s : Swap) (reason : String) (status : SwapUpdateEvent) : List Action :=
  [.emitUpdate s.id ⟨status, none, none⟩, .emitFailure (.inl s) false reason]

/-- `EventHandler.handleFailedReverseSwap`: emit `swap.update` with the
failure status, then `swap.failure` with the reverse swap and the reason. -/
def handleFailedReverseSwapTrace (r : ReverseSwap) (reason : String) (status : SwapUpdateEvent) : List Action :=
  [.emitUpdate r.id ⟨status, none, none⟩, .emitFailure (.inr r) true reason]

/-- The submarine branch of `subscribeTransactions`, for one output of one
`transaction` event: look the swap up by lockup address; when its status is
unset or `TransactionMempool`, store the lockup transaction and, when the
transaction is confirmed or the swap accepts zero-conf, emit `swap.update`
with `TransactionConfirmed` when confirmed and `TransactionMempool`
otherwise. -/
def onTransactionSwapPart (swaps : List Swap) (txid : String)
    (outAddr : String) (outValue : Nat) (confirmed : Bool) :
    List Swap × List Action :=
  match swaps.find? (fun s => s.lockupAddress == outAddr) with
  | none => (swaps, [])
  | some swap =>
    if swap.status = none ∨ swap.status = some .TransactionMempool then
      let swap' := setLockupTransactionId swap txid outValue confirmed
      (applyToFirst (fun s => s.lockupAddress == outAddr) (fun _ => swap') swaps,
        .writeSwap swap' ::
          (if confirmed || swap.acceptZeroConf then
            [.emitUpdate swap.id
              ⟨if confirmed then .TransactionConfirmed else .TransactionMempool, none, none⟩]
          else []))
    else (swaps, [])

/-- The reverse branch of `subscribeTransactions` (runs only for confirmed
transactions): look the reverse swap up by its lockup transaction id; when it
is in `TransactionMempool`, record and emit `TransactionConfirmed`. -/
def onTransactionReversePart (revs : List ReverseSwap) (txid txHex : String)
    (confirmed : Bool) : List ReverseSwap × List Action :=
  if confirmed then
    match revs.find? (fun r => r.transactionId == some txid) with
    | none => (revs, [])
    | some rev =>
      if rev.status = some .TransactionMempool then
        let rev' := setReverseSwapStatus rev .TransactionConfirmed
        (applyToFirst (fun r => r.transactionId == some txid) (fun _ => rev') revs,
          [.writeReverseSwap rev',
            .emitUpdate rev.id ⟨.TransactionConfirmed, some txid, some txHex⟩])
      else (revs, [])
  else (revs, [])

/-- The whole `transaction` callback of `EventHandler.subscribeTransactions`
for one transaction output. -/
def onTransaction (swaps : List Swap) (revs : List ReverseSwap)
    (txid txHex outAddr : String) (outValue : Nat) (confirmed : Bool) :
    List Swap × List ReverseSwap × List Action :=
  let sp := onTransactionSwapPart swaps txid outAddr outValue confirmed
  let rp := onTransactionReversePart revs txid txHex confirmed
  (sp.1, rp.1, sp.2 ++ rp.2)

/-- The `invoice.settled` callback of `subscribeInvoices`. -/
def onInvoiceSettled (revs : List ReverseSwap) (invoice preimage : String) :
    List ReverseSwap × List Action :=
  match revs.find? (fun r => r.invoice == invoice) with
  | none => (revs, [])
  | some rev =>
    let rev' := setInvoiceSettled rev preimage
    (applyToFirst (fun r => r.invoice == invoice) (fun _ => rev') revs,
      [.writeReverseSwap rev',
        .emitUpdate rev'.id ⟨.InvoiceSettled, none, none⟩,
        .emitSuccess (.inr rev') true])

/-- The `invoice.paid` callback of `subscribeInvoices`. -/
def onInvoicePaid (swaps : List Swap) (invoice : String) (routingFee : Nat) :
    List Swap × List Action :=
  match swaps.find? (fun s => s.invoice == invoice) with
  | none => (swaps, [])
  | some swap =>
    let swap' := setInvoicePaid swap routingFee
    (applyToFirst (fun s => s.invoice == invoice) (fun _ => swap') swaps,
      [.writeSwap swap', .emitUpdate swap.id ⟨.InvoicePaid, none, none⟩])

/-- The `invoice.failedToPay` callback of `subscribeInvoices`. -/
def onInvoiceFailedToPay (swaps : List Swap) (invoice : String) :
    List Swap × List Action :=
  match swaps.find? (fun s => s.invoice == invoice) with
  | none => (swaps, [])
  | some swap =>
    let swap' := setSwapStatus swap .InvoiceFailedToPay
    (applyToFirst (fun s => s.invoice == invoice) (fun _ => swap') swaps,
      .writeSwap swap' ::
        handleFailedSwapTrace swap' msgInvoiceCouldNotBePaid .InvoiceFailedToPay)

/-- The `claim` callback of `subscribeSwapEvents`. -/
def onClaim (swaps : List Swap) (lockupTransactionId : String) (minerFee : Nat) :
    List Swap × List Action :=
  match swaps.find? (fun s => s.lockupTransactionId == some lockupTransactionId) with
  | none => (swaps, [])
  | some swap =>
    let swap' := setMinerFee swap minerFee
    (applyToFirst (fun s => s.lockupTransactionId == some lockupTransactionId)
        (fun _ => swap') swaps,
      [.writeSwap swap',
        .emitUpdate swap'.id ⟨.TransactionClaimed, none, none⟩,
        .emitSuccess (.inl swap') false])

/-- The `expiration` callback of `subscribeSwapEvents` (both branches). -/
def onExpiration (swaps : List Swap) (revs : List ReverseSwap)
    (invoice : String) (isReverse : Bool) :
    List Swap × List ReverseSwap × List Action :=
  if !isReverse then
    match swaps.find? (fun s => s.invoice == invoice) with
    | none => (swaps, revs, [])
    | some swap =>
      let swap' := setSwapStatus swap .SwapExpired
      (applyToFirst (fun s => s.invoice == invoice) (fun _ => swap') swaps, revs,
        .writeSwap swap' :: handleFailedSwapTrace swap' msgOnchainHtlcTimedOut .SwapExpired)
  else
    match revs.find? (fun r => r.invoice == invoice) with
    | none => (swaps, revs, [])
    | some rev =>
      let rev' := setReverseSwapStatus rev .SwapExpired
      (swaps, applyToFirst (fun r => r.invoice == invoice) (fun _ => rev') revs,
        .writeReverseSwap rev' ::
          handleFailedReverseSwapTrace rev' msgOnchainHtlcTimedOut .SwapExpired)

/-- The `coins.sent` callback of `subscribeSwapEvents`. -/
def onCoinsSent (revs : List ReverseSwap) (invoice txid txHex : String) (minerFee : Nat) :
    List ReverseSwap × List Action :=
  match revs.find? (fun r => r.invoice == invoice) with
  | none => (revs, [])
  | some rev =>
    let rev' := setLockupTransaction rev txid minerFee
    (applyToFirst (fun r => r.invoice == invoice) (fun _ => rev') revs,
      [.writeReverseSwap rev',
        .emitUpdate rev'.id ⟨.TransactionMempool, some txid, some txHex⟩])

/-- The `coins.failedToSend` callback of `subscribeSwapEvents`. -/
def onCoinsFailedToSend (revs : List ReverseSwap) (invoice : String) :
    List ReverseSwap × List Action :=
  match revs.find? (fun r => r.invoice == invoice) with
  | none => (revs, [])
  | some rev =>
    let rev' := setReverseSwapStatus rev .TransactionFailed
    (applyToFirst (fun r => r.invoice == invoice) (fun _ => rev') revs,
      .writeReverseSwap rev' ::
        handleFailedReverseSwapTrace rev' msgCoinsCouldNotBeSent .TransactionFailed)

/-- The `refund` callback of `subscribeSwapEvents`. -/
def onRefund (revs : List ReverseSwap) (lockupTransactionId : String) (minerFee : Nat) :
    List ReverseSwap × List Action :=
  match revs.find? (fun r => r.transactionId == some lockupTransactionId) with
  | none => (revs, [])
  | some rev =>
    let rev' := setTransactionRefunded rev minerFee
    (applyToFirst (fun r => r.transactionId == some lockupTransactionId)
        (fun _ => rev') revs,
      .writeReverseSwap rev' ::
        handleFailedReverseSwapTrace rev' msgOnchainHtlcTimedOut .TransactionRefunded)

/-- Does this action emit `swap.update` with status `TransactionConfirmed`? -/
def isConfirmedUpdate : Action → Bool
  | .emitUpdate _ msg => msg.status == .TransactionConfirmed
  | _ => false

/-- Checks the write-ahead rule along a trace: every `swap.update` emission is
preceded by a repository write for the same swap id. -/
def writeBeforeUpdateAux (written : List String) : List Action → Bool
  | [] => true
  | a :: rest =>
    match a with
    | .writeSwap s => writeBeforeUpdateAux (s.id :: written) rest
    | .writeReverseSwap r => writeBeforeUpdateAux (r.id :: written) rest
    | .emitUpdate id _ => written.contains id && writeBeforeUpdateAux written rest
    | _ => writeBeforeUpdateAux written rest

/-- The write-ahead rule for a whole trace. -/
def writeBeforeUpdate (tr : List Action) : Bool :=
  writeBeforeUpdateAux [] tr

/-! ## Service: swap creation (`lib/service/Service.ts`) -/

/-- Error values thrown by `Service` (`service/Errors`). -/
inductive ServiceError where
  | swapWithInvoiceExists
  | pairNotFound (pairId : String)
  | orderSideNotFound (side : Nat)
  | currencyNotFound (symbol : String)
  | exceedMaximalAmount (amount : ℚ) (maximal : ℤ)
  | beneathMinimalAmount (amount : ℚ) (minimal : ℤ)
  | amountTooLow
  | reverseSwapsDisabled
  deriving DecidableEq, Repr

/-- Amount limits of a trading pair (`rateProvider.pairs`). -/
structure Limits where
  maximal : ℤ
  minimal : ℤ
  deriving DecidableEq, Repr

/-- A pair entry of `rateProvider.pairs`: the rate and optional limits. -/
structure PairInfo where
  rate : ℚ
  limits : Option Limits := none
  deriving DecidableEq, Repr

/-- Result of `swapManager.createSwap` (the swap manager is an external
collaborator of `Service`). -/
structure SwapManagerResult where
  address : String
  keyIndex : Nat
  redeemScript : String
  timeoutBlockHeight : Nat
  deriving DecidableEq, Repr

/-- Result of `swapManager.createReverseSwap`. -/
structure ReverseManagerResult where
  invoice : String
  minerFee : Nat
  keyIndex : Nat
  redeemScript : String
  lockupTransaction : String
  lockupTransactionId : String
  deriving DecidableEq, Repr

/-- The collaborators `Service` consumes: the rate provider's pair map, the
per-currency chain configs (`timeoutBlockDelta`), the `Utils` helpers
(`getRate`, `getChainCurrency`, `getLightningCurrency`, `getInvoiceAmt`),
the fee provider, the zero-conf policy, id generation, BIP21 encoding and the
swap manager.  They are kept abstract, as the spec specifies them only as
interfaces. -/
structure ServiceEnv where
  pairs : List (String × PairInfo)
  chainConfigs : List (String × Nat)
  getRate : ℚ → OrderSide → Bool → ℚ
  getChainCurrency : String → String → OrderSide → Bool → String
  getLightningCurrency : String → String → OrderSide → Bool → String
  getInvoiceAmt : String → Nat
  getFees : String → ℚ → OrderSide → Nat → Bool → Nat × Nat
  acceptZeroConfPolicy : String → ℤ → Bool
  freshId : String
  encodeBip21 : String → String → ℤ → String → String
  swapManagerCreate : String → String → OrderSide → String → ℤ → String → Nat → Bool →
    SwapManagerResult
  swapManagerCreateReverse : String → String → OrderSide → Nat → ℤ → String → Nat →
    ReverseManagerResult

/-- Modelled from the spec: `Utils.splitPairId` splits a pair id of the form
`BASE/QUOTE` (e.g. `LTC/BTC`) into base and quote. -/
def splitPairId (pairId : String) : String × String :=
  (String.mk (pairId.data.takeWhile (fun c => c ≠ '/')),
   String.mk ((pairId.data.dropWhile (fun c => c ≠ '/')).drop 1))

/-- `Service.getOrderSide`: `0 ↦ BUY`, `1 ↦ SELL`, anything else throws
`ORDER_SIDE_NOT_FOUND`. -/
def getOrderSideE (side : Nat) : Except ServiceError OrderSide :=
  match side with
  | 0 => .ok .BUY
  | 1 => .ok .SELL
  | n => .error (.orderSideNotFound n)

/-- `Service.verifyAmount`: for `SELL` orders the amount is first converted
with the rate, then checked against the pair's limits (`PAIR_NOT_FOUND` when
the pair is unknown, `CURRENCY_NOT_FOUND` when it has no limits). -/
def verifyAmountE (pairs : List (String × PairInfo)) (pairId : String)
    (rate : ℚ) (amount : ℚ) (orderSide : OrderSide) : Except ServiceError Unit :=
  let amt : ℚ := if orderSide = .SELL then ((⌊amount * rate⌋ : ℤ) : ℚ) else amount
  match pairs.lookup pairId with
  | none => .error (.pairNotFound pairId)
  | some pair =>
    match pair.limits with
    | none => .error (.currencyNotFound pairId)
    | some lim =>
      if ⌊amt⌋ > lim.maximal then .error (.exceedMaximalAmount amt lim.maximal)
      else if ⌈amt⌉ < lim.minimal then .error (.beneathMinimalAmount amt lim.minimal)
      else .ok ()

/-- The row `Service.createSwap` hands to `swapRepository.addSwap`. -/
structure SwapRow where
  id : String
  invoice : String
  keyIndex : Nat
  redeemScript : String
  acceptZeroConf : Bool
  pair : String
  orderSide : OrderSide
  fee : Nat
  lockupAddress : String
  deriving DecidableEq, Repr

/-- The response returned by `Service.createSwap`. -/
structure CreateSwapResponse where
  id : String
  address : String
  redeemScript : String
  expectedAmount : ℤ
  acceptZeroConf : Bool
  timeoutBlockHeight : Nat
  bip21 : String
  deriving DecidableEq, Repr

/-- `Service.createSwap`: reject a duplicate invoice, resolve the pair, the
order side, the chain config and the rate, verify the amount, compute
`expectedAmount = ceil(invoiceAmount * rate) + baseFee + percentageFee`,
create the swap through the swap manager, persist the row and respond.  The
second component is the swap store after the call (unchanged when an error is
thrown). -/
def createSwap (env : ServiceEnv) (store : List SwapRow) (pairId : String)
    (orderSide : Nat) (invoice : String) (refundPublicKey : String) :
    Except ServiceError CreateSwapResponse × List SwapRow :=
  if (store.find? (fun s => s.invoice == invoice)).isSome then
    (.error .swapWithInvoiceExists, store)
  else
    match env.pairs.lookup pairId with
    | none => (.error (.pairNotFound pairId), store)
    | some pair =>
      match getOrderSideE orderSide with
      | .error e => (.error e, store)
      | .ok side =>
        let base := (splitPairId pairId).1
        let quote := (splitPairId pairId).2
        let chainCurrency := env.getChainCurrency base quote side false
        let lightningCurrency := env.getLightningCurrency base quote side false
        match env.chainConfigs.lookup chainCurrency with
        | none => (.error (.currencyNotFound chainCurrency), store)
        | some timeoutBlockDelta =>
          let invoiceAmount := env.getInvoiceAmt invoice
          let rate := env.getRate pair.rate side false
          match verifyAmountE env.pairs pairId rate (invoiceAmount : ℚ) side with
          | .error e => (.error e, store)
          | .ok _ =>
            let fees := env.getFees pairId rate side invoiceAmount false
            let expectedAmount : ℤ :=
              ⌈(invoiceAmount : ℚ) * rate⌉ + (fees.1 : ℤ) + (fees.2 : ℤ)
            let acceptZeroConf := env.acceptZeroConfPolicy chainCurrency expectedAmount
            let mgr := env.swapManagerCreate base quote side invoice expectedAmount
              refundPublicKey timeoutBlockDelta acceptZeroConf
            let id := env.freshId
            let row : SwapRow :=
              { id, invoice, keyIndex := mgr.keyIndex, redeemScript := mgr.redeemScript,
                acceptZeroConf, pair := pairId, orderSide := side, fee := fees.2,
                lockupAddress := mgr.address }
            let resp : CreateSwapResponse :=
              { id, address := mgr.address, redeemScript := mgr.redeemScript,
                expectedAmount, acceptZeroConf,
                timeoutBlockHeight := mgr.timeoutBlockHeight,
                bip21 := env.encodeBip21 chainCurrency mgr.address expectedAmount
                  lightningCurrency }
            (.ok resp, store ++ [row])

/-- The row `Service.createReverseSwap` hands to
`reverseSwapRepository.addReverseSwap`. -/
structure ReverseSwapRow where
  id : String
  invoice : String
  minerFee : Nat
  keyIndex : Nat
  redeemScript : String
  onchainAmount : ℤ
  pair : String
  orderSide : OrderSide
  fee : Nat
  transactionId : String
  deriving DecidableEq, Repr

/-- The response returned by `Service.createReverseSwap`. -/
structure CreateReverseSwapResponse where
  id : String
  invoice : String
  redeemScript : String
  lockupTransaction : String
  lockupTransactionId : String
  deriving DecidableEq, Repr

/-- The on-chain amount computed by `Service.createReverseSwap`:
`floor(invoiceAmount * rate) - (baseFee + percentageFee)`. -/
def reverseOnchainAmount (env : ServiceEnv) (pairId : String) (pairRate : ℚ)
    (side : OrderSide) (invoiceAmount : Nat) : ℤ :=
  let rate := env.getRate pairRate side true
  let fees := env.getFees pairId rate side invoiceAmount true
  ⌊(invoiceAmount : ℚ) * rate⌋ - ((fees.1 : ℤ) + (fees.2 : ℤ))

/-- `Service.createReverseSwap`: check the kill switch, resolve the pair, the
order side, the chain config and the rate, verify the amount, compute the
on-chain amount and reject it with `AMOUNT_TOO_LOW` when it is below 1, then
create the reverse swap, persist the row and respond.  The second component
is the reverse swap store after the call. -/
def createReverseSwap (env : ServiceEnv) (allowReverseSwaps : Bool)
    (store : List ReverseSwapRow) (pairId : String) (orderSide : Nat)
    (invoiceAmount : Nat) (claimPublicKey : String) :
    Except ServiceError CreateReverseSwapResponse × List ReverseSwapRow :=
  if !allowReverseSwaps then
    (.error .reverseSwapsDisabled, store)
  else
    match env.pairs.lookup pairId with
    | none => (.error (.pairNotFound pairId), store)
    | some pair =>
      match getOrderSideE orderSide with
      | .error e => (.error e, store)
      | .ok side =>
        let base := (splitPairId pairId).1
        let quote := (splitPairId pairId).2
        let chainCurrency := env.getChainCurrency base quote side true
        match env.chainConfigs.lookup chainCurrency with
        | none => (.error (.currencyNotFound chainCurrency), store)
        | some timeoutBlockDelta =>
          let rate := env.getRate pair.rate side true
          match verifyAmountE env.pairs pairId rate (invoiceAmount : ℚ) side with
          | .error e => (.error e, store)
          | .ok _ =>
            let fees := env.getFees pairId rate side invoiceAmount true
            let onchainAmount : ℤ :=
              ⌊(invoiceAmount : ℚ) * rate⌋ - ((fees.1 : ℤ) + (fees.2 : ℤ))
            if onchainAmount < 1 then
              (.error .amountTooLow, store)
            else
              let mgr := env.swapManagerCreateReverse base quote side invoiceAmount
                onchainAmount claimPublicKey timeoutBlockDelta
              let id := env.freshId
              let row : ReverseSwapRow :=
                { id, invoice := mgr.invoice, minerFee := mgr.minerFee,
                  keyIndex := mgr.keyIndex, redeemScript := mgr.redeemScript,
                  onchainAmount, pair := pairId, orderSide := side, fee := fees.2,
                  transactionId := mgr.lockupTransactionId }
              let resp : CreateReverseSwapResponse :=
                { id, invoice := mgr.invoice, redeemScript := mgr.redeemScript,
                  lockupTransaction := mgr.lockupTransaction,
                  lockupTransactionId := mgr.lockupTransactionId }
              (.ok resp, store ++ [row])

/-! ## ChainClient.estimateFee (`lib/chain/ChainClient.ts`) -/

/-- Outcome of the `estimatesmartfee` RPC call: a response that may or may
not carry a `feerate` (in coins per kilobyte), or a thrown error with a
message. -/
inductive RpcOutcome where
  | success (feerate : Option ℚ)
  | failure (message : String)
  deriving DecidableEq, Repr

/-- JavaScript `Math.round`: round half away from zero towards positive
infinity. -/
def jsRound (x : ℚ) : ℤ := ⌊x + 1 / 2⌋

/-- `ChainClient.estimateFee`: with a reported feerate return
`max(round(feerate * 10^8 / 1000), 2)` sat/vByte; with no feerate return 2;
when the RPC method is missing return 2; rethrow any other error. -/
def estimateFee (resp : RpcOutcome) : Except String ℤ :=
  match resp with
  | .success feerate =>
    match feerate with
    | some fr => .ok (max (jsRound (fr * 100000000 / 1000)) 2)
    | none => .ok 2
  | .failure msg =>
    if msg = "Method not found" then .ok 2
    else .error msg

/-! ## Controller (`lib/api/Controller.ts`) -/

/-- A swap row as `Controller.init` reads it back from the database. -/
structure SwapDb where
  id : String
  status : Option SwapUpdateEvent
  deriving DecidableEq, Repr

/-- A reverse swap row as `Controller.init` reads it back. -/
structure ReverseSwapDb where
  id : String
  status : Option SwapUpdateEvent
  preimage : Option String
  deriving DecidableEq, Repr

/-- A value of the `pendingSwapInfos` map: the status object stored per swap
id, with the preimage only present for settled reverse swaps. -/
structure SwapInfo where
  status : SwapUpdateEvent
  preimage : Option String := none
  deriving DecidableEq, Repr

/-- `Map.set`: overwrite the entry for `k`. -/
def mapSet (m : List (String × SwapInfo)) (k : String) (v : SwapInfo) :
    List (String × SwapInfo) :=
  (k, v) :: m.filter (fun e => !(e.1 == k))

/-- One step of the swap loop of `Controller.init`: rows with a status are
stored as `{ status }`. -/
def initSwapStep (m : List (String × SwapInfo)) (s : SwapDb) :
    List (String × SwapInfo) :=
  match s.status with
  | none => m
  | some st => mapSet m s.id ⟨st, none⟩

/-- One step of the reverse swap loop of `Controller.init`: rows with a
status are stored as `{ status }`, except `InvoiceSettled` rows which are
stored as `{ status, preimage }`. -/
def initReverseStep (m : List (String × SwapInfo)) (r : ReverseSwapDb) :
    List (String × SwapInfo) :=
  match r.status with
  | none => m
  | some st =>
    if st ≠ .InvoiceSettled then mapSet m r.id ⟨st, none⟩
    else mapSet m r.id ⟨st, r.preimage⟩

/-- `Controller.init`: load the latest status of every swap and reverse swap
into the `pendingSwapInfos` map. -/
def controllerInit (swaps : List SwapDb) (reverseSwaps : List ReverseSwapDb) :
    List (String × SwapInfo) :=
  reverseSwaps.foldl initReverseStep (swaps.foldl initSwapStep [])

/-! ## Controller.validateRequest -/

/-- A JSON value of a request body, as far as `validateRequest` inspects it. -/
inductive JsValue where
  | str (s : String)
  | num (n : ℚ)
  | boolean (b : Bool)
  deriving DecidableEq, Repr

/-- JavaScript `typeof`. -/
def typeofJs : JsValue → String
  | .str _ => "string"
  | .num _ => "number"
  | .boolean _ => "boolean"

/-- The underlying string of a string value (hex parsing is only ever applied
to values whose `typeof` is `string`). -/
def jsString : JsValue → String
  | .str s => s
  | _ => ""

/-- Value of a hexadecimal digit. -/
def hexDigitVal? (c : Char) : Option Nat :=
  if '0' ≤ c ∧ c ≤ '9' then some (c.toNat - '0'.toNat)
  else if 'a' ≤ c ∧ c ≤ 'f' then some (c.toNat - 'a'.toNat + 10)
  else if 'A' ≤ c ∧ c ≤ 'F' then some (c.toNat - 'A'.toNat + 10)
  else none

/-- Hex decoding as `Buffer.from(input, 'hex')` does it: decode pairs of hex
digits from the start and stop at the first invalid or incomplete pair. -/
def hexPairsToBytes : List Char → List Nat
  | c1 :: c2 :: rest =>
    match hexDigitVal? c1, hexDigitVal? c2 with
    | some hi, some lo => (16 * hi + lo) :: hexPairsToBytes rest
    | _, _ => []
  | _ => []

/-- `Utils.getHexBuffer`: `Buffer.from(input, 'hex')`. -/
def getHexBufferBytes (s : String) : List Nat :=
  hexPairsToBytes s.data

/-- An argument to check: its name, expected `typeof` and whether it must
parse as hex. -/
structure ArgSpec where
  name : String
  type : String
  hexFlag : Bool := false
  deriving DecidableEq, Repr

/-- A validated argument value: the raw JSON value, or the parsed hex
buffer. -/
inductive ArgValue where
  | plain (v : JsValue)
  | hexBuf (bytes : List Nat)
  deriving DecidableEq, Repr

/-- `body[arg.name]` (`undefined` becomes `none`). -/
def lookupBody (body : List (String × JsValue)) (name : String) : Option JsValue :=
  (body.find? (fun e => e.1 == name)).map (fun e => e.2)

/-- `Controller.validateRequest`: check the arguments in order; a missing
argument throws `undefined parameter`, a `typeof` mismatch throws
`invalid parameter`, an empty hex parse throws `could not parse hex string`;
on success each argument name is mapped to its value (hex arguments to the
parsed buffer). -/
def validateRequest (body : List (String × JsValue)) :
    List ArgSpec → Except String (List (String × ArgValue))
  | [] => .ok []
  | a :: rest =>
    match lookupBody body a.name with
    | none => .error ("undefined parameter: " ++ a.name)
    | some v =>
      if typeofJs v = a.type then
        if a.hexFlag then
          if (getHexBufferBytes (jsString v)).length = 0 then
            .error ("could not parse hex string: " ++ a.name)
          else
            match validateRequest body rest with
            | .error e => .error e
            | .ok r => .ok ((a.name, ArgValue.hexBuf (getHexBufferBytes (jsString v))) :: r)
        else
          match validateRequest body rest with
          | .error e => .error e
          | .ok r => .ok ((a.name, ArgValue.plain v) :: r)
      else .error ("invalid parameter: " ++ a.name)

/-- Does the argument pass all checks of `validateRequest` against `body`? -/
def argOk (body : List (String × JsValue)) (a : ArgSpec) : Bool :=
  match lookupBody body a.name with
  | none => false
  | some v =>
    if typeofJs v = a.type then
      if a.hexFlag then !((getHexBufferBytes (jsString v)).length == 0) else true
    else false

/-- The error string `validateRequest` throws for an offending argument. -/
def argErrMsg (body : List (String × JsValue)) (a : ArgSpec) : String :=
  match lookupBody body a.name with
  | none => "undefined parameter: " ++ a.name
  | some v =>
    if typeofJs v = a.type then "could not parse hex string: " ++ a.name
    else "invalid parameter: " ++ a.name

/-- The entry `validateRequest` stores for a passing argument. -/
def argConvert (body : List (String × JsValue)) (a : ArgSpec) : String × ArgValue :=
  match lookupBody body a.name with
  | none => (a.name, ArgValue.plain (.str ""))
  | some v =>
    if a.hexFlag then (a.name, ArgValue.hexBuf (getHexBufferBytes (jsString v)))
    else (a.name, ArgValue.plain v)

/-! ## Concrete sample data used to evaluate the theorems -/

/-- A submarine swap already past the funding stage. -/
def demoSwap : Swap :=
  { id := "s1", invoice := "inv1", lockupAddress := "addr1",
    acceptZeroConf := true, expectedAmount := 101500,
    status := some .InvoicePaid }

/-- A reverse swap whose lockup is already confirmed. -/
def demoReverseSwap : ReverseSwap :=
  { id := "r1", invoice := "rinv1", status := some .TransactionConfirmed,
    transactionId := some "tx1" }

/-- A submarine swap awaiting payment of its invoice. -/
def demoSwapPending : Swap :=
  { id := "s2", invoice := "inv2", lockupAddress := "addr2",
    acceptZeroConf := false, expectedAmount := 5000,
    status := some .TransactionConfirmed, lockupTransactionId := some "ltx2" }

/-- A reverse swap awaiting its lockup broadcast. -/
def demoReverseSwapPending : ReverseSwap :=
  { id := "r2", invoice := "rinv2", status := some .SwapCreated }

/-- A sample environment: pair `LTC/BTC` at rate 1 with wide limits, base fee
500, percentage fee 1000, invoices of 100000 sat. -/
def demoEnv : ServiceEnv :=
  { pairs := [("LTC/BTC", { rate := 1, limits := some { maximal := 1000000000, minimal := 1 } })]
    chainConfigs := [("LTC", 40), ("BTC", 10)]
    getRate := fun r _ _ => r
    getChainCurrency := fun b _ _ _ => b
    getLightningCurrency := fun _ q _ _ => q
    getInvoiceAmt := fun _ => 100000
    getFees := fun _ _ _ _ _ => (500, 1000)
    acceptZeroConfPolicy := fun _ _ => true
    freshId := "0123456789abcdef"
    encodeBip21 := fun _ _ _ _ => "bip21"
    swapManagerCreate := fun _ _ _ _ _ _ _ _ =>
      { address := "lockup", keyIndex := 0, redeemScript := "script",
        timeoutBlockHeight := 700000 }
    swapManagerCreateReverse := fun _ _ _ _ _ _ _ =>
      { invoice := "lnInvoice", minerFee := 200, keyIndex := 0,
        redeemScript := "script", lockupTransaction := "rawTx",
        lockupTransactionId := "lockupTxId" } }

/-- The response `createSwap` produces for `demoEnv` on an empty store. -/
def demoCreateSwapResponse : CreateSwapResponse :=
  { id := "0123456789abcdef", address := "lockup", redeemScript := "script",
    expectedAmount := 101500, acceptZeroConf := true,
    timeoutBlockHeight := 700000, bip21 := "bip21" }

/-- A store that already holds a swap for the invoice `"dup"`. -/
def demoStoreWithDup : List SwapRow :=
  [{ id := "a", invoice := "dup", keyIndex := 0, redeemScript := "rs",
     acceptZeroConf := false, pair := "LTC/BTC", orderSide := .BUY, fee := 0,
     lockupAddress := "addrA" }]

/-- The pair entry of `demoEnv`. -/
def demoPair : PairInfo :=
  { rate := 1, limits := some { maximal := 1000000000, minimal := 1 } }

/-- The row `createSwap` persists for `demoEnv` on an empty store. -/
def demoCreateSwapRow : SwapRow :=
  { id := "0123456789abcdef", invoice := "inv", keyIndex := 0,
    redeemScript := "script", acceptZeroConf := true, pair := "LTC/BTC",
    orderSide := .SELL, fee := 1000, lockupAddress := "lockup" }

end Boltz

namespace Boltz

/-! ## Helper lemmas -/

theorem find?_applyToFirst {α : Type} (p : α → Bool) (f : α → α) (l : List α) (x : α)
    (h : l.find? p = some x) (hf : p (f x) = true) :
    (applyToFirst p f l).find? p = some (f x) := by
  induction l with
  | nil => simp [List.find?] at h
  | cons a t ih =>
    cases hpa : p a with
    | true =>
      rw [List.find?_cons_of_pos _ hpa] at h
      injection h with h
      subst h
      simp [applyToFirst, hpa, List.find?_cons_of_pos _ hf]
    | false =>
      have hpa' : ¬ p a = true := by simp [hpa]
      rw [List.find?_cons_of_neg _ hpa'] at h
      simp [applyToFirst, hpa, List.find?_cons_of_neg _ hpa', ih h]

theorem writeBeforeUpdateAux_append (w : List String) (t1 t2 : List Action)
    (h1 : writeBeforeUpdateAux w t1 = true)
    (h2 : ∀ w', writeBeforeUpdateAux w' t2 = true) :
    writeBeforeUpdateAux w (t1 ++ t2) = true := by
  induction t1 generalizing w with
  | nil => simpa using h2 w
  | cons a t ih =>
    cases a with
    | writeSwap s =>
      simp only [writeBeforeUpdateAux, List.cons_append] at h1 ⊢
      exact ih _ h1
    | writeReverseSwap r =>
      simp only [writeBeforeUpdateAux, List.cons_append] at h1 ⊢
      exact ih _ h1
    | emitUpdate id msg =>
      simp only [writeBeforeUpdateAux, List.cons_append, Bool.and_eq_true] at h1 ⊢
      exact ⟨h1.1, ih _ h1.2⟩
    | emitSuccess s b =>
      simp only [writeBeforeUpdateAux, List.cons_append] at h1 ⊢
      exact ih _ h1
    | emitFailure s b r =>
      simp only [writeBeforeUpdateAux, List.cons_append] at h1 ⊢
      exact ih _ h1

theorem swapPart_writeAhead (swaps : List Swap) (txid outAddr : String)
    (outValue : Nat) (confirmed : Bool) (w : List String) :
    writeBeforeUpdateAux w (onTransactionSwapPart swaps txid outAddr outValue confirmed).2 = true := by
  unfold onTransactionSwapPart
  cases hf : swaps.find? (fun s => s.lockupAddress == outAddr) with
  | none => simp [writeBeforeUpdateAux]
  | some swap =>
    by_cases hst : swap.status = none ∨ swap.status = some .TransactionMempool
    · simp only [hst, if_pos]
      cases hc : (confirmed || swap.acceptZeroConf) <;>
        simp [writeBeforeUpdateAux, setLockupTransactionId]
    · simp [hst, writeBeforeUpdateAux]

theorem reversePart_writeAhead (revs : List ReverseSwap) (txid txHex : String)
    (confirmed : Bool) (w : List String) :
    writeBeforeUpdateAux w (onTransactionReversePart revs txid txHex confirmed).2 = true := by
  unfold onTransactionReversePart
  cases confirmed with
  | false => simp [writeBeforeUpdateAux]
  | true =>
    cases hf : revs.find? (fun r => r.transactionId == some txid) with
    | none => simp [writeBeforeUpdateAux]
    | some rev =>
      by_cases hst : rev.status = some .TransactionMempool
      · simp [hst, writeBeforeUpdateAux, setReverseSwapStatus]
      · simp [hst, writeBeforeUpdateAux]

theorem swapPart_confirmed_idem (swaps : List Swap) (txid outAddr : String)
    (outValue : Nat) :
    onTransactionSwapPart (onTransactionSwapPart swaps txid outAddr outValue true).1
      txid outAddr outValue true
      = ((onTransactionSwapPart swaps txid outAddr outValue true).1, []) := by
  cases hf : swaps.find? (fun s => s.lockupAddress == outAddr) with
  | none =>
    have h1 : onTransactionSwapPart swaps txid outAddr outValue true = (swaps, []) := by
      unfold onTransactionSwapPart
      simp [hf]
    rw [h1]
    unfold onTransactionSwapPart
    simp [hf]
  | some swap =>
    by_cases hst : swap.status = none ∨ swap.status = some .TransactionMempool
    · have hp : (swap.lockupAddress == outAddr) = true := by
        have := List.find?_some hf
        simpa using this
      have hp' : ((setLockupTransactionId swap txid outValue true).lockupAddress == outAddr) = true := by
        simpa [setLockupTransactionId] using hp
      have h1 : (onTransactionSwapPart swaps txid outAddr outValue true).1
          = applyToFirst (fun s => s.lockupAddress == outAddr)
              (fun _ => setLockupTransactionId swap txid outValue true) swaps := by
        unfold onTransactionSwapPart
        simp [hf, hst]
      have hfind2 : (applyToFirst (fun s => s.lockupAddress == outAddr)
            (fun _ => setLockupTransactionId swap txid outValue true) swaps).find?
            (fun s => s.lockupAddress == outAddr)
          = some (setLockupTransactionId swap txid outValue true) :=
        find?_applyToFirst _ _ _ _ hf hp'
      rw [h1]
      unfold onTransactionSwapPart
      rw [hfind2]
      have hng : ¬((setLockupTransactionId swap txid outValue true).status = none ∨
          (setLockupTransactionId swap txid outValue true).status = some .TransactionMempool) := by
        simp [setLockupTransactionId]
      simp [hng]
    · have h1 : onTransactionSwapPart swaps txid outAddr outValue true = (swaps, []) := by
        unfold onTransactionSwapPart
        simp [hf, hst]
      rw [h1]
      unfold onTransactionSwapPart
      simp [hf, hst]

theorem reversePart_confirmed_idem (revs : List ReverseSwap) (txid txHex : String) :
    onTransactionReversePart (onTransactionReversePart revs txid txHex true).1 txid txHex true
      = ((onTransactionReversePart revs txid txHex true).1, []) := by
  cases hf : revs.find? (fun r => r.transactionId == some txid) with
  | none =>
    have h1 : onTransactionReversePart revs txid txHex true = (revs, []) := by
      unfold onTransactionReversePart
      simp [hf]
    rw [h1]
    unfold onTransactionReversePart
    simp [hf]
  | some rev =>
    by_cases hst : rev.status = some .TransactionMempool
    · have hp : (rev.transactionId == some txid) = true := by
        have := List.find?_some hf
        simpa using this
      have hp' : ((setReverseSwapStatus rev .TransactionConfirmed).transactionId == some txid) = true := by
        simpa [setReverseSwapStatus] using hp
      have h1 : (onTransactionReversePart revs txid txHex true).1
          = applyToFirst (fun r => r.transactionId == some txid)
              (fun _ => setReverseSwapStatus rev .TransactionConfirmed) revs := by
        unfold onTransactionReversePart
        simp [hf, hst]
      have hfind2 : (applyToFirst (fun r => r.transactionId == some txid)
            (fun _ => setReverseSwapStatus rev .TransactionConfirmed) revs).find?
            (fun r => r.transactionId == some txid)
          = some (setReverseSwapStatus rev .TransactionConfirmed) :=
        find?_applyToFirst _ _ _ _ hf hp'
      rw [h1]
      unfold onTransactionReversePart
      rw [hfind2]
      have hng : ¬(setReverseSwapStatus rev .TransactionConfirmed).status = some .TransactionMempool := by
        simp [setReverseSwapStatus]
      simp [hng]
    · have h1 : onTransactionReversePart revs txid txHex true = (revs, []) := by
        unfold onTransactionReversePart
        simp [hf, hst]
      rw [h1]
      unfold onTransactionReversePart
      simp [hf, hst]

/-! ## Claim theorems -/

/-- C1: for every `transaction` event delivered to the EventHandler
transaction handler with `confirmed = false`, no `swap.update` with status
`TransactionConfirmed` is ever emitted: the unconfirmed branch emits
`TransactionMempool` even for zero-conf swaps.  In particular, zero-conf
acceptance (an emission of `TransactionConfirmed` at mempool sighting) never
fires for an unconfirmed transaction whose output value is below the swap's
`expectedAmount` — the claimed safety property holds for every output value. -/
theorem spec_c1 (swaps : List Swap) (revs : List ReverseSwap)
    (txid txHex outAddr : String) (outValue : Nat) :
    ((onTransaction swaps revs txid txHex outAddr outValue false).2.2.all
      (fun a => !isConfirmedUpdate a)) = true := by
  have hrev : (onTransactionReversePart revs txid txHex false).2 = [] := by
    unfold onTransactionReversePart
    simp
  simp only [onTransaction, hrev, List.append_nil]
  unfold onTransactionSwapPart
  cases hf : swaps.find? (fun s => s.lockupAddress == outAddr) with
  | none => simp
  | some swap =>
    by_cases hst : swap.status = none ∨ swap.status = some .TransactionMempool
    · simp only [hst, if_pos]
      cases hz : swap.acceptZeroConf <;> simp [isConfirmedUpdate]
    · simp [hst]

/-- C4: the EventHandler transaction handler preserves monotone state
progression: the submarine branch changes nothing unless the swap's status is
unset or `TransactionMempool`; the reverse branch changes nothing unless the
reverse swap's status is `TransactionMempool`; and therefore re-delivering a
confirmed transaction event after it has been processed changes nothing. -/
theorem spec_c4 :
    (∀ (swaps : List Swap) (txid outAddr : String) (outValue : Nat) (confirmed : Bool) (s : Swap),
      swaps.find? (fun x => x.lockupAddress == outAddr) = some s →
      ¬(s.status = none ∨ s.status = some .TransactionMempool) →
      onTransactionSwapPart swaps txid outAddr outValue confirmed = (swaps, [])) ∧
    (∀ (revs : List ReverseSwap) (txid txHex : String) (confirmed : Bool) (r : ReverseSwap),
      revs.find? (fun x => x.transactionId == some txid) = some r →
      r.status ≠ some .TransactionMempool →
      onTransactionReversePart revs txid txHex confirmed = (revs, [])) ∧
    (∀ (swaps : List Swap) (revs : List ReverseSwap) (txid txHex outAddr : String) (outValue : Nat),
      onTransaction (onTransaction swaps revs txid txHex outAddr outValue true).1
        (onTransaction swaps revs txid txHex outAddr outValue true).2.1
        txid txHex outAddr outValue true
      = ((onTransaction swaps revs txid txHex outAddr outValue true).1,
         (onTransaction swaps revs txid txHex outAddr outValue true).2.1, [])) := by
  refine ⟨?_, ?_, ?_⟩
  · intro swaps txid outAddr outValue confirmed s hf hst
    unfold onTransactionSwapPart
    simp [hf, hst]
  · intro revs txid txHex confirmed r hf hst
    unfold onTransactionReversePart
    cases confirmed with
    | false => simp
    | true => simp [hf, hst]
  · intro swaps revs txid txHex outAddr outValue
    simp only [onTransaction, swapPart_confirmed_idem, reversePart_confirmed_idem,
      List.append_nil]

/-- C4 witness: a swap already at `InvoicePaid` and a reverse swap already at
`TransactionConfirmed` are left untouched by a renewed transaction event. -/
theorem spec_c4_witness :
    onTransactionSwapPart [demoSwap] "tx9" "addr1" 5 false = ([demoSwap], []) ∧
    onTransactionReversePart [demoReverseSwap] "tx1" "hex" true = ([demoReverseSwap], []) :=
  ⟨spec_c4.1 [demoSwap] "tx9" "addr1" 5 false demoSwap (by decide) (by decide),
   spec_c4.2.1 [demoReverseSwap] "tx1" "hex" true demoReverseSwap (by decide) (by decide)⟩

/-- C5: in every EventHandler callback (`transaction`, `invoice.settled`,
`invoice.paid`, `invoice.failedToPay`, `claim`, `expiration`, `coins.sent`,
`coins.failedToSend`, `refund`) the repository write that records the state
transition precedes the matching `swap.update` emission in the callback's
trace (the write-ahead rule). -/
theorem spec_c5 :
    (∀ (swaps : List Swap) (revs : List ReverseSwap) (txid txHex outAddr : String)
        (outValue : Nat) (confirmed : Bool),
      writeBeforeUpdate (onTransaction swaps revs txid txHex outAddr outValue confirmed).2.2 = true) ∧
    (∀ (revs : List ReverseSwap) (invoice preimage : String),
      writeBeforeUpdate (onInvoiceSettled revs invoice preimage).2 = true) ∧
    (∀ (swaps : List Swap) (invoice : String) (routingFee : Nat),
      writeBeforeUpdate (onInvoicePaid swaps invoice routingFee).2 = true) ∧
    (∀ (swaps : List Swap) (invoice : String),
      writeBeforeUpdate (onInvoiceFailedToPay swaps invoice).2 = true) ∧
    (∀ (swaps : List Swap) (lockupTransactionId : String) (minerFee : Nat),
      writeBeforeUpdate (onClaim swaps lockupTransactionId minerFee).2 = true) ∧
    (∀ (swaps : List Swap) (revs : List ReverseSwap) (invoice : String) (isReverse : Bool),
      writeBeforeUpdate (onExpiration swaps revs invoice isReverse).2.2 = true) ∧
    (∀ (revs : List ReverseSwap) (invoice txid txHex : String) (minerFee : Nat),
      writeBeforeUpdate (onCoinsSent revs invoice txid txHex minerFee).2 = true) ∧
    (∀ (revs : List ReverseSwap) (invoice : String),
      writeBeforeUpdate (onCoinsFailedToSend revs invoice).2 = true) ∧
    (∀ (revs : List ReverseSwap) (lockupTransactionId : String) (minerFee : Nat),
      writeBeforeUpdate (onRefund revs lockupTransactionId minerFee).2 = true) := by
  refine ⟨?_, ?_, ?_, ?_, ?_, ?_, ?_, ?_, ?_⟩
  · intro swaps revs txid txHex outAddr outValue confirmed
    simp only [onTransaction, writeBeforeUpdate]
    exact writeBeforeUpdateAux_append _ _ _
      (swapPart_writeAhead swaps txid outAddr outValue confirmed [])
      (fun w' => reversePart_writeAhead revs txid txHex confirmed w')
  · intro revs invoice preimage
    unfold onInvoiceSettled
    cases hf : revs.find? (fun r => r.invoice == invoice) with
    | none => simp [writeBeforeUpdate, writeBeforeUpdateAux]
    | some rev =>
      simp [writeBeforeUpdate, writeBeforeUpdateAux, setInvoiceSettled]
  · intro swaps invoice routingFee
    unfold onInvoicePaid
    cases hf : swaps.find? (fun s => s.invoice == invoice) with
    | none => simp [writeBeforeUpdate, writeBeforeUpdateAux]
    | some swap =>
      simp [writeBeforeUpdate, writeBeforeUpdateAux, setInvoicePaid]
  · intro swaps invoice
    unfold onInvoiceFailedToPay
    cases hf : swaps.find? (fun s => s.invoice == invoice) with
    | none => simp [writeBeforeUpdate, writeBeforeUpdateAux]
    | some swap =>
      simp [writeBeforeUpdate, writeBeforeUpdateAux, handleFailedSwapTrace, setSwapStatus]
  · intro swaps lockupTransactionId minerFee
    unfold onClaim
    cases hf : swaps.find? (fun s => s.lockupTransactionId == some lockupTransactionId) with
    | none => simp [writeBeforeUpdate, writeBeforeUpdateAux]
    | some swap =>
      simp [writeBeforeUpdate, writeBeforeUpdateAux, setMinerFee]
  · intro swaps revs invoice isReverse
    unfold onExpiration
    cases isReverse with
    | false =>
      cases hf : swaps.find? (fun s => s.invoice == invoice) with
      | none => simp [writeBeforeUpdate, writeBeforeUpdateAux]
      | some swap =>
        simp [writeBeforeUpdate, writeBeforeUpdateAux, handleFailedSwapTrace, setSwapStatus]
    | true =>
      cases hf : revs.find? (fun r => r.invoice == invoice) with
      | none => simp [writeBeforeUpdate, writeBeforeUpdateAux]
      | some rev =>
        simp [writeBeforeUpdate, writeBeforeUpdateAux, handleFailedReverseSwapTrace,
          setReverseSwapStatus]
  · intro revs invoice txid txHex minerFee
    unfold onCoinsSent
    cases hf : revs.find? (fun r => r.invoice == invoice) with
    | none => simp [writeBeforeUpdate, writeBeforeUpdateAux]
    | some rev =>
      simp [writeBeforeUpdate, writeBeforeUpdateAux, setLockupTransaction]
  · intro revs invoice
    unfold onCoinsFailedToSend
    cases hf : revs.find? (fun r => r.invoice == invoice) with
    | none => simp [writeBeforeUpdate, writeBeforeUpdateAux]
    | some rev =>
      simp [writeBeforeUpdate, writeBeforeUpdateAux, handleFailedReverseSwapTrace,
        setReverseSwapStatus]
  · intro revs lockupTransactionId minerFee
    unfold onRefund
    cases hf : revs.find? (fun r => r.transactionId == some lockupTransactionId) with
    | none => simp [writeBeforeUpdate, writeBeforeUpdateAux]
    | some rev =>
      simp [writeBeforeUpdate, writeBeforeUpdateAux, handleFailedReverseSwapTrace,
        setTransactionRefunded]

/-- C8: every terminal failure transition handled by the EventHandler
(`InvoiceFailedToPay`, `SwapExpired` for submarine and reverse swaps,
`TransactionFailed`, `TransactionRefunded`) emits both a `swap.update`
carrying the failure status and a `swap.failure` carrying the swap, the
`isReverse` flag, and a failure reason. -/
theorem spec_c8 :
    (∀ (swaps : List Swap) (invoice : String) (s : Swap),
      swaps.find? (fun x => x.invoice == invoice) = some s →
      Action.emitUpdate s.id ⟨.InvoiceFailedToPay, none, none⟩
          ∈ (onInvoiceFailedToPay swaps invoice).2 ∧
      Action.emitFailure (.inl (setSwapStatus s .InvoiceFailedToPay)) false
          msgInvoiceCouldNotBePaid ∈ (onInvoiceFailedToPay swaps invoice).2) ∧
    (∀ (swaps : List Swap) (revs : List ReverseSwap) (invoice : String) (s : Swap),
      swaps.find? (fun x => x.invoice == invoice) = some s →
      Action.emitUpdate s.id ⟨.SwapExpired, none, none⟩
          ∈ (onExpiration swaps revs invoice false).2.2 ∧
      Action.emitFailure (.inl (setSwapStatus s .SwapExpired)) false
          msgOnchainHtlcTimedOut ∈ (onExpiration swaps revs invoice false).2.2) ∧
    (∀ (swaps : List Swap) (revs : List ReverseSwap) (invoice : String) (r : ReverseSwap),
      revs.find? (fun x => x.invoice == invoice) = some r →
      Action.emitUpdate r.id ⟨.SwapExpired, none, none⟩
          ∈ (onExpiration swaps revs invoice true).2.2 ∧
      Action.emitFailure (.inr (setReverseSwapStatus r .SwapExpired)) true
          msgOnchainHtlcTimedOut ∈ (onExpiration swaps revs invoice true).2.2) ∧
    (∀ (revs : List ReverseSwap) (invoice : String) (r : ReverseSwap),
      revs.find? (fun x => x.invoice == invoice) = some r →
      Action.emitUpdate r.id ⟨.TransactionFailed, none, none⟩
          ∈ (onCoinsFailedToSend revs invoice).2 ∧
      Action.emitFailure (.inr (setReverseSwapStatus r .TransactionFailed)) true
          msgCoinsCouldNotBeSent ∈ (onCoinsFailedToSend revs invoice).2) ∧
    (∀ (revs : List ReverseSwap) (lockupTransactionId : String) (minerFee : Nat) (r : ReverseSwap),
      revs.find? (fun x => x.transactionId == some lockupTransactionId) = some r →
      Action.emitUpdate r.id ⟨.TransactionRefunded, none, none⟩
          ∈ (onRefund revs lockupTransactionId minerFee).2 ∧
      Action.emitFailure (.inr (setTransactionRefunded r minerFee)) true
          msgOnchainHtlcTimedOut ∈ (onRefund revs lockupTransactionId minerFee).2) := by
  refine ⟨?_, ?_, ?_, ?_, ?_⟩
  · intro swaps invoice s hf
    unfold onInvoiceFailedToPay
    simp [hf, handleFailedSwapTrace, setSwapStatus]
  · intro swaps revs invoice s hf
    unfold onExpiration
    simp [hf, handleFailedSwapTrace, setSwapStatus]
  · intro swaps revs invoice r hf
    unfold onExpiration
    simp [hf, handleFailedReverseSwapTrace, setReverseSwapStatus]
  · intro revs invoice r hf
    unfold onCoinsFailedToSend
    simp [hf, handleFailedReverseSwapTrace, setReverseSwapStatus]
  · intro revs lockupTransactionId minerFee r hf
    unfold onRefund
    simp [hf, handleFailedReverseSwapTrace, setTransactionRefunded]

theorem createSwap_cases (env : ServiceEnv) (store : List SwapRow) (pairId : String)
    (orderSide : Nat) (invoice refundPublicKey : String) :
    (∃ e, createSwap env store pairId orderSide invoice refundPublicKey = (.error e, store)) ∨
    (∃ resp row, createSwap env store pairId orderSide invoice refundPublicKey
      = (.ok resp, store ++ [row])) := by
  unfold createSwap
  dsimp only
  split
  · exact .inl ⟨_, rfl⟩
  · split
    · exact .inl ⟨_, rfl⟩
    · split
      · exact .inl ⟨_, rfl⟩
      · split
        · exact .inl ⟨_, rfl⟩
        · split
          · exact .inl ⟨_, rfl⟩
          · exact .inr ⟨_, _, rfl⟩

/-- C2: for every successful `createSwap` call, the returned `expectedAmount`
is `ceil(invoiceAmount * rate) + baseFee + percentageFee`, where the rate and
the fees are the values obtained from the rate and fee providers for the
resolved pair and order side. -/
theorem spec_c2 (env : ServiceEnv) (store : List SwapRow) (pairId : String)
    (orderSide : Nat) (invoice refundPublicKey : String)
    (resp : CreateSwapResponse) (store' : List SwapRow)
    (hok : createSwap env store pairId orderSide invoice refundPublicKey = (.ok resp, store')) :
    ∃ pair side, env.pairs.lookup pairId = some pair ∧ getOrderSideE orderSide = .ok side ∧
      resp.expectedAmount =
        ⌈(env.getInvoiceAmt invoice : ℚ) * env.getRate pair.rate side false⌉
        + ((env.getFees pairId (env.getRate pair.rate side false) side
            (env.getInvoiceAmt invoice) false).1 : ℤ)
        + ((env.getFees pairId (env.getRate pair.rate side false) side
            (env.getInvoiceAmt invoice) false).2 : ℤ) := by
  unfold createSwap at hok
  dsimp only at hok
  split at hok
  · simp at hok
  · split at hok
    · simp at hok
    · next pair hpair =>
      split at hok
      · simp at hok
      · next side hside =>
        split at hok
        · simp at hok
        · next timeoutBlockDelta hcfg =>
          split at hok
          · simp at hok
          · simp only [Prod.mk.injEq, Except.ok.injEq] at hok
            obtain ⟨h1, _⟩ := hok
            refine ⟨pair, side, hpair, hside, ?_⟩
            rw [← h1]

/-- C2 witness: with rate 1, invoice amount 100000 sat, base fee 500 and
percentage fee 1000, the returned `expectedAmount` is 101500. -/
theorem spec_c2_witness :
    (∃ pair side, demoEnv.pairs.lookup "LTC/BTC" = some pair ∧ getOrderSideE 1 = .ok side ∧
      demoCreateSwapResponse.expectedAmount =
        ⌈(demoEnv.getInvoiceAmt "inv" : ℚ) * demoEnv.getRate pair.rate side false⌉
        + ((demoEnv.getFees "LTC/BTC" (demoEnv.getRate pair.rate side false) side
            (demoEnv.getInvoiceAmt "inv") false).1 : ℤ)
        + ((demoEnv.getFees "LTC/BTC" (demoEnv.getRate pair.rate side false) side
            (demoEnv.getInvoiceAmt "inv") false).2 : ℤ)) ∧
    demoCreateSwapResponse.expectedAmount = 101500 :=
  ⟨spec_c2 demoEnv [] "LTC/BTC" 1 "inv" "ab" demoCreateSwapResponse
      ([] ++ [demoCreateSwapRow])
      (by simp [createSwap, demoEnv, demoCreateSwapResponse, demoCreateSwapRow,
        verifyAmountE, getOrderSideE, splitPairId, mul_one, Int.ceil_natCast,
        Int.floor_natCast, Int.floor_intCast]),
   by decide⟩

/-- C3: for every `createReverseSwap` call that passes pair lookup, order
side resolution, chain config lookup and amount-limit verification, the
on-chain amount is `floor(invoiceAmount * rate) - (baseFee + percentageFee)`;
the call fails with `AMOUNT_TOO_LOW` exactly when that value is below 1, and
on that failure the reverse swap store is unchanged. -/
theorem spec_c3 (env : ServiceEnv) (store : List ReverseSwapRow) (pairId : String)
    (orderSide : Nat) (invoiceAmount : Nat) (claimPublicKey : String)
    (pair : PairInfo) (side : OrderSide) (cfg : Nat)
    (hpair : env.pairs.lookup pairId = some pair)
    (hside : getOrderSideE orderSide = .ok side)
    (hcfg : env.chainConfigs.lookup
        (env.getChainCurrency (splitPairId pairId).1 (splitPairId pairId).2 side true)
        = some cfg)
    (hver : verifyAmountE env.pairs pairId (env.getRate pair.rate side true)
        (invoiceAmount : ℚ) side = .ok ()) :
    (reverseOnchainAmount env pairId pair.rate side invoiceAmount < 1 →
      createReverseSwap env true store pairId orderSide invoiceAmount claimPublicKey
        = (.error .amountTooLow, store)) ∧
    (1 ≤ reverseOnchainAmount env pairId pair.rate side invoiceAmount →
      ∃ resp row,
        createReverseSwap env true store pairId orderSide invoiceAmount claimPublicKey
          = (.ok resp, store ++ [row]) ∧
        row.onchainAmount = reverseOnchainAmount env pairId pair.rate side invoiceAmount) := by
  have hoca : reverseOnchainAmount env pairId pair.rate side invoiceAmount
      = ⌊(invoiceAmount : ℚ) * env.getRate pair.rate side true⌋
        - (((env.getFees pairId (env.getRate pair.rate side true) side invoiceAmount true).1 : ℤ)
          + ((env.getFees pairId (env.getRate pair.rate side true) side invoiceAmount true).2 : ℤ)) := rfl
  unfold createReverseSwap
  simp only [Bool.not_true, Bool.false_eq_true, if_false, hpair, hside, hcfg, hver]
  rw [← hoca]
  constructor
  · intro hlt
    rw [if_pos hlt]
  · intro hge
    rw [if_neg (by omega)]
    exact ⟨_, _, rfl, rfl⟩

/-- C3 witness: with rate 1 and total fees 1500, an invoice amount of
1000 sat is rejected with `AMOUNT_TOO_LOW` leaving the store unchanged,
while an invoice amount of 100000 sat yields a persisted on-chain amount of
`floor(100000) - 1500`. -/
theorem spec_c3_witness :
    createReverseSwap demoEnv true [] "LTC/BTC" 1 1000 "ab" = (.error .amountTooLow, []) ∧
    (∃ resp row, createReverseSwap demoEnv true [] "LTC/BTC" 1 100000 "ab"
        = (.ok resp, [] ++ [row]) ∧
      row.onchainAmount = reverseOnchainAmount demoEnv "LTC/BTC" demoPair.rate .SELL 100000) :=
  ⟨(spec_c3 demoEnv [] "LTC/BTC" 1 1000 "ab" demoPair .SELL 40
      (by decide) rfl (by decide)
      (by simp [verifyAmountE, demoEnv, demoPair, mul_one, Int.floor_natCast,
        Int.floor_intCast, Int.ceil_intCast])).1
      (by simp [reverseOnchainAmount, demoEnv, demoPair, mul_one, Int.floor_natCast]),
   (spec_c3 demoEnv [] "LTC/BTC" 1 100000 "ab" demoPair .SELL 40
      (by decide) rfl (by decide)
      (by simp [verifyAmountE, demoEnv, demoPair, mul_one, Int.floor_natCast,
        Int.floor_intCast, Int.ceil_intCast])).2
      (by simp [reverseOnchainAmount, demoEnv, demoPair, mul_one, Int.floor_natCast])⟩

/-- C6: `ChainClient.estimateFee` returns at least 2 sat/vByte: it returns
`max(round(feerate * 10^8 / 1000), 2)` when `estimatesmartfee` reports a
feerate, exactly 2 when no feerate is reported or the method is not found,
and rethrows any other RPC error. -/
theorem spec_c6 (resp : RpcOutcome) :
    (∀ v : ℤ, estimateFee resp = .ok v → 2 ≤ v) ∧
    (∀ fr : ℚ, resp = .success (some fr) →
      estimateFee resp = .ok (max (jsRound (fr * 100000000 / 1000)) 2)) ∧
    (resp = .success none → estimateFee resp = .ok 2) ∧
    (resp = .failure "Method not found" → estimateFee resp = .ok 2) ∧
    (∀ m : String, resp = .failure m → m ≠ "Method not found" →
      estimateFee resp = .error m) := by
  refine ⟨?_, ?_, ?_, ?_, ?_⟩
  · intro v hv
    cases resp with
    | success feerate =>
      cases feerate with
      | some fr =>
        simp only [estimateFee, Except.ok.injEq] at hv
        rw [← hv]
        exact le_max_right _ _
      | none =>
        simp only [estimateFee, Except.ok.injEq] at hv
        omega
    | failure m =>
      by_cases hm : m = "Method not found"
      · simp only [estimateFee, hm, if_pos, Except.ok.injEq] at hv
        omega
      · simp [estimateFee, hm] at hv
  · intro fr hfr
    subst hfr
    rfl
  · intro h
    subst h
    rfl
  · intro h
    subst h
    rfl
  · intro m hm hne
    subst hm
    simp [estimateFee, hne]

/-- C6 witness: a reported feerate of 0.00001 coins/kB yields the 2 sat/vByte
floor, and an unrecognised RPC error is rethrown. -/
theorem spec_c6_witness :
    estimateFee (.success (some (1 / 100000)))
      = .ok (max (jsRound (1 / 100000 * 100000000 / 1000)) 2) ∧
    estimateFee (.success none) = .ok 2 ∧
    estimateFee (.failure "Method not found") = .ok 2 ∧
    estimateFee (.failure "connection refused") = .error "connection refused" :=
  ⟨(spec_c6 (.success (some (1 / 100000)))).2.1 (1 / 100000) rfl,
   (spec_c6 (.success none)).2.2.1 rfl,
   (spec_c6 (.failure "Method not found")).2.2.2.1 rfl,
   (spec_c6 (.failure "connection refused")).2.2.2.2 "connection refused" rfl (by decide)⟩

/-- C7: `createSwap` fails with `SWAP_WITH_INVOICE_EXISTS` whenever a swap
with the same invoice already exists, and every creation-time validation
failure is raised before the new swap is persisted: whenever the call returns
an error, the swap store is unchanged. -/
theorem spec_c7 (env : ServiceEnv) (store : List SwapRow) (pairId : String)
    (orderSide : Nat) (invoice refundPublicKey : String) :
    ((store.find? (fun s => s.invoice == invoice)).isSome = true →
      createSwap env store pairId orderSide invoice refundPublicKey
        = (.error .swapWithInvoiceExists, store)) ∧
    (∀ e : ServiceError,
      (createSwap env store pairId orderSide invoice refundPublicKey).1 = .error e →
      (createSwap env store pairId orderSide invoice refundPublicKey).2 = store) := by
  constructor
  · intro hdup
    unfold createSwap
    simp [hdup]
  · intro e he
    rcases createSwap_cases env store pairId orderSide invoice refundPublicKey with
      ⟨e', h⟩ | ⟨resp, row, h⟩
    · rw [h]
    · rw [h] at he
      simp at he

/-- C7 witness: a duplicate invoice is rejected with
`SWAP_WITH_INVOICE_EXISTS` and the store is left unchanged. -/
theorem spec_c7_witness :
    createSwap demoEnv demoStoreWithDup "LTC/BTC" 0 "dup" "ab"
      = (.error .swapWithInvoiceExists, demoStoreWithDup) :=
  (spec_c7 demoEnv demoStoreWithDup "LTC/BTC" 0 "dup" "ab").1 (by decide)

theorem mem_mapSet {m : List (String × SwapInfo)} {k : String} {v : SwapInfo}
    {e : String × SwapInfo} (h : e ∈ mapSet m k v) : e = (k, v) ∨ e ∈ m := by
  unfold mapSet at h
  rcases List.mem_cons.mp h with h | h
  · exact .inl h
  · exact .inr (List.mem_filter.mp h).1

theorem initSwapFold_preimage (swaps : List SwapDb) (m : List (String × SwapInfo))
    (hm : ∀ e ∈ m, e.2.preimage.isSome = true → e.2.status = SwapUpdateEvent.InvoiceSettled) :
    ∀ e ∈ swaps.foldl initSwapStep m,
      e.2.preimage.isSome = true → e.2.status = SwapUpdateEvent.InvoiceSettled := by
  induction swaps generalizing m with
  | nil => simpa using hm
  | cons s t ih =>
    rw [List.foldl_cons]
    apply ih
    intro e he hpre
    unfold initSwapStep at he
    cases hs : s.status with
    | none =>
      rw [hs] at he
      exact hm e he hpre
    | some st =>
      rw [hs] at he
      rcases mem_mapSet he with rfl | hmem
      · simp at hpre
      · exact hm e hmem hpre

theorem initReverseFold_preimage (reverseSwaps : List ReverseSwapDb)
    (m : List (String × SwapInfo))
    (hm : ∀ e ∈ m, e.2.preimage.isSome = true → e.2.status = SwapUpdateEvent.InvoiceSettled) :
    ∀ e ∈ reverseSwaps.foldl initReverseStep m,
      e.2.preimage.isSome = true → e.2.status = SwapUpdateEvent.InvoiceSettled := by
  induction reverseSwaps generalizing m with
  | nil => simpa using hm
  | cons r t ih =>
    rw [List.foldl_cons]
    apply ih
    intro e he hpre
    unfold initReverseStep at he
    cases hr : r.status with
    | none =>
      rw [hr] at he
      exact hm e he hpre
    | some st =>
      rw [hr] at he
      by_cases hst : st = SwapUpdateEvent.InvoiceSettled
      · simp only [hst, ne_eq, not_true, if_neg, ite_false, not_false_iff] at he
        rcases mem_mapSet he with rfl | hmem
        · exact hst ▸ rfl
        · exact hm e hmem hpre
      · simp only [ne_eq, hst, not_false_iff, if_pos, ite_true] at he
        rcases mem_mapSet he with rfl | hmem
        · simp at hpre
        · exact hm e hmem hpre

/-- C9: `Controller.init` exposes a preimage through the swap-status map only
for reverse swaps whose status is `InvoiceSettled`: every map entry carrying
a preimage has status `InvoiceSettled`; every other entry holds the status
alone. -/
theorem spec_c9 (swaps : List SwapDb) (reverseSwaps : List ReverseSwapDb)
    (e : String × SwapInfo) (hmem : e ∈ controllerInit swaps reverseSwaps)
    (hpre : e.2.preimage.isSome = true) :
    e.2.status = SwapUpdateEvent.InvoiceSettled := by
  refine initReverseFold_preimage reverseSwaps _ ?_ e hmem hpre
  exact initSwapFold_preimage swaps [] (by intro e he; simp at he)

/-- C9 witness: a settled reverse swap's entry carries its preimage and the
application of the theorem to it yields `InvoiceSettled`. -/
theorem spec_c9_witness :
    (SwapInfo.mk SwapUpdateEvent.InvoiceSettled (some "ab")).status
      = SwapUpdateEvent.InvoiceSettled :=
  spec_c9 [⟨"s1", some .TransactionMempool⟩]
    [⟨"r1", some .InvoiceSettled, some "ab"⟩, ⟨"r2", some .TransactionMempool, some "cd"⟩]
    ("r1", ⟨.InvoiceSettled, some "ab"⟩) (by decide) (by decide)

/-- C10: `Controller.validateRequest` succeeds exactly when every listed
argument is present, has the declared `typeof` and, when flagged as hex,
parses to a non-empty buffer; otherwise it throws the error string naming
the first offending parameter; on success it maps each argument name to its
value, hex arguments to the parsed buffer. -/
theorem spec_c10 (body : List (String × JsValue)) (args : List ArgSpec) :
    validateRequest body args =
      match args.find? (fun a => !argOk body a) with
      | some a => .error (argErrMsg body a)
      | none => .ok (args.map (argConvert body)) := by
  induction args with
  | nil => rfl
  | cons a rest ih =>
    cases hok : argOk body a with
    | false =>
      have hfind : (a :: rest).find? (fun x => !argOk body x) = some a :=
        List.find?_cons_of_pos _ (by simp [hok])
      rw [hfind]
      unfold validateRequest
      unfold argErrMsg
      cases hl : lookupBody body a.name with
      | none => simp [hl]
      | some v =>
        simp only [argOk, hl] at hok
        by_cases ht : typeofJs v = a.type
        · rw [if_pos ht] at hok
          cases hhex : a.hexFlag with
          | false =>
            rw [hhex] at hok
            simp at hok
          | true =>
            rw [hhex] at hok
            have hlen : (getHexBufferBytes (jsString v)).length = 0 := by
              simpa using hok
            simp [hl, ht, hhex, hlen]
        · rw [if_neg ht] at hok
          simp [hl, ht]
    | true =>
      have hfind : (a :: rest).find? (fun x => !argOk body x)
          = rest.find? (fun x => !argOk body x) := by
        rw [List.find?_cons_of_neg]
        simp [hok]
      rw [hfind]
      unfold validateRequest
      cases hl : lookupBody body a.name with
      | none =>
        simp only [argOk, hl] at hok
        exact (Bool.false_ne_true hok).elim
      | some v =>
        simp only [argOk, hl] at hok
        by_cases ht : typeofJs v = a.type
        · rw [if_pos ht] at hok
          cases hhex : a.hexFlag with
          | true =>
            rw [hhex] at hok
            have hlen : ¬ (getHexBufferBytes (jsString v)).length = 0 := by
              simpa using hok
            rw [ih]
            cases hrest : rest.find? (fun x => !argOk body x) with
            | some b => simp [hl, ht, hhex, hlen, hrest]
            | none => simp [hl, ht, hhex, hlen, hrest, argConvert]
          | false =>
            rw [hhex] at hok
            rw [ih]
            cases hrest : rest.find? (fun x => !argOk body x) with
            | some b => simp [hl, ht, hhex, hrest]
            | none => simp [hl, ht, hhex, hrest, argConvert]
        · rw [if_neg ht] at hok
          simp at hok

/-- C8 witness: the four failure callbacks evaluated on concrete pending
swaps. -/
theorem spec_c8_witness :
    (Action.emitUpdate "s2" ⟨.InvoiceFailedToPay, none, none⟩
        ∈ (onInvoiceFailedToPay [demoSwapPending] "inv2").2 ∧
      Action.emitFailure (.inl (setSwapStatus demoSwapPending .InvoiceFailedToPay)) false
        msgInvoiceCouldNotBePaid ∈ (onInvoiceFailedToPay [demoSwapPending] "inv2").2) ∧
    (Action.emitUpdate "r2" ⟨.TransactionFailed, none, none⟩
        ∈ (onCoinsFailedToSend [demoReverseSwapPending] "rinv2").2 ∧
      Action.emitFailure (.inr (setReverseSwapStatus demoReverseSwapPending .TransactionFailed)) true
        msgCoinsCouldNotBeSent ∈ (onCoinsFailedToSend [demoReverseSwapPending] "rinv2").2) :=
  ⟨spec_c8.1 [demoSwapPending] "inv2" demoSwapPending (by decide),
   spec_c8.2.2.2.1 [demoReverseSwapPending] "rinv2" demoReverseSwapPending (by decide)⟩

end Boltz
